import Mathlib

/-!
Verification of the AI fitness assistant core logic.

This file shallowly embeds the logic of the repository into Lean:
the credential manager (utils/auth.py), the persistence boundary
(utils/database.py), the meal planner (utils/meal_planner.py), the workout
generator (utils/workout_generator.py), the body-fat estimator
(utils/ml_models.py), the progress percentage computation
(app_dashboard_functions.py) and the chat coach adapter (utils/ai_coach.py).
External effects (bcrypt, sqlite, the random module, the remote chat service)
are modelled as explicit function parameters or oracle arguments, and machine
floats are modelled as rationals or reals.
-/

namespace Auth

/-- Model of the character class test performed by the two character-class
regexes in auth.py. Python re.match with a pattern of the shape
^[class]+$ accepts a nonempty all-class string, and also tolerates exactly
one trailing newline (the Python dollar anchor matches just before a newline
that ends the string). -/
def py_match_class_anchored (p : Char → Bool) (s : String) : Bool :=
  let cs := s.data
  let core := if cs.getLast? = some '\n' then cs.dropLast else cs
  !core.isEmpty && core.all p

/-- Characters accepted by the username regex class [a-zA-Z0-9_]. -/
def is_word_char (c : Char) : Bool :=
  c.isAlphanum || c = '_'

/-- Characters accepted by the email local-part class [a-zA-Z0-9._%+-]. -/
def is_local_char (c : Char) : Bool :=
  c.isAlphanum || c = '.' || c = '_' || c = '%' || c = '+' || c = '-'

/-- Characters accepted by the email domain class [a-zA-Z0-9.-]. -/
def is_domain_char (c : Char) : Bool :=
  c.isAlphanum || c = '.' || c = '-'

/-- Match of the email pattern local+ at-sign domain+ dot alpha-two-or-more
against a full character list (anchored on both sides). Since the local and
domain classes both exclude the at-sign, the local part must stop at the first
at-sign; since the top-level-domain part is all-alphabetic and preceded by a
literal dot, it must be the maximal alphabetic suffix. -/
def email_core_match (cs : List Char) : Bool :=
  let L := cs.takeWhile (fun c => c ≠ '@')
  if L.length = cs.length then false
  else
    let R := cs.drop (L.length + 1)
    let T := (R.reverse.takeWhile (fun c => c.isAlpha)).reverse
    let pre := R.take (R.length - T.length)
    !L.isEmpty && L.all is_local_char && decide (2 ≤ T.length) &&
      (match pre.getLast? with
       | some c => c = '.' && !pre.dropLast.isEmpty && pre.dropLast.all is_domain_char
       | none => false)

/-- Python re.match of the email regex in AuthManager.validate_email,
including the trailing-newline tolerance of the dollar anchor. -/
def py_email_match (s : String) : Bool :=
  let cs := s.data
  email_core_match (if cs.getLast? = some '\n' then cs.dropLast else cs)

/-- AuthManager.validate_email. -/
def validate_email (email : String) : Bool × String :=
  if email = "" then (false, "Email is required")
  else if !py_email_match email then (false, "Invalid email format")
  else (true, "")

/-- AuthManager.validate_username. -/
def validate_username (username : String) : Bool × String :=
  if username = "" then (false, "Username is required")
  else if username.length < 3 then (false, "Username must be at least 3 characters")
  else if 20 < username.length then (false, "Username must be less than 20 characters")
  else if !py_match_class_anchored is_word_char username then
    (false, "Username can only contain letters, numbers, and underscores")
  else (true, "")

/-- AuthManager.validate_password (MIN_PASSWORD_LENGTH is 8). -/
def validate_password (password : String) : Bool × String :=
  if password = "" then (false, "Password is required")
  else if password.length < 8 then (false, "Password must be at least 8 characters")
  else if !password.data.any (fun c => c.isAlpha) then
    (false, "Password must contain at least one letter")
  else if !password.data.any (fun c => c.isDigit) then
    (false, "Password must contain at least one number")
  else (true, "")

/-- A row of the users table. -/
structure User where
  id : Nat
  username : String
  email : String
  password_hash : String
  is_active : Bool
  last_login : Option Nat
deriving DecidableEq, Repr

/-- The users table together with the autoincrement counter. -/
structure DbState where
  users : List User
  next_id : Nat
deriving DecidableEq, Repr

/-- Database.get_user_by_username. -/
def get_user_by_username (st : DbState) (username : String) : Option User :=
  st.users.find? (fun u => u.username = username)

/-- Database.get_user_by_email. -/
def get_user_by_email (st : DbState) (email : String) : Option User :=
  st.users.find? (fun u => u.email = email)

/-- Database.create_user. The INSERT violates a UNIQUE constraint exactly when
the username or email is already present; the IntegrityError is caught and the
method returns None with the state unchanged. The third component counts
committed store writes. -/
def create_user (st : DbState) (username email password_hash : String) :
    Option Nat × DbState × Nat :=
  if st.users.any (fun u => u.username = username || u.email = email) then
    (none, st, 0)
  else
    (some st.next_id,
     { users := st.users ++
         [{ id := st.next_id, username := username, email := email,
            password_hash := password_hash, is_active := true, last_login := none }],
       next_id := st.next_id + 1 },
     1)

/-- Database.update_last_login; the wall-clock timestamp is passed in. -/
def update_last_login (st : DbState) (user_id now : Nat) : DbState × Nat :=
  ({ st with users := st.users.map fun u =>
      if u.id = user_id then { u with last_login := some now } else u }, 1)

/-- Result of AuthManager.register_user, with the resulting store state and
the number of committed store writes made explicit. -/
structure RegisterOutcome where
  ok : Bool
  msg : String
  user_id : Option Nat
  state : DbState
  writes : Nat
deriving DecidableEq, Repr

/-- AuthManager.register_user. Password hashing (bcrypt) is an external
effect and is passed in as a function. -/
def register_user (hash_password : String → String) (st : DbState)
    (username email password : String) : RegisterOutcome :=
  let vu := validate_username username
  if !vu.1 then ⟨false, vu.2, none, st, 0⟩
  else
    let ve := validate_email email
    if !ve.1 then ⟨false, ve.2, none, st, 0⟩
    else
      let vp := validate_password password
      if !vp.1 then ⟨false, vp.2, none, st, 0⟩
      else if (get_user_by_username st username).isSome then
        ⟨false, "Username already exists", none, st, 0⟩
      else if (get_user_by_email st email).isSome then
        ⟨false, "Email already registered", none, st, 0⟩
      else
        match create_user st username email (hash_password password) with
        | (some uid, st2, w) => ⟨true, "Registration successful", some uid, st2, w⟩
        | (none, st2, w) => ⟨false, "Registration failed. Please try again.", none, st2, w⟩

/-- Result of AuthManager.login_user, with store state and write count. -/
structure LoginOutcome where
  ok : Bool
  msg : String
  data : Option User
  state : DbState
  writes : Nat
deriving DecidableEq, Repr

/-- Lookup by username, falling back to email, as in login_user. -/
def find_user (st : DbState) (username_or_email : String) : Option User :=
  match get_user_by_username st username_or_email with
  | some u => some u
  | none => get_user_by_email st username_or_email

/-- Removal of the password hash from the returned record. -/
def strip_hash (u : User) : User := { u with password_hash := "" }

/-- AuthManager.login_user. Password verification (bcrypt) is an external
effect and is passed in as a function. -/
def login_user (verify_password : String → String → Bool) (now : Nat)
    (st : DbState) (username_or_email password : String) : LoginOutcome :=
  if username_or_email = "" || password = "" then
    ⟨false, "Username/email and password are required", none, st, 0⟩
  else
    match find_user st username_or_email with
    | none => ⟨false, "Invalid credentials", none, st, 0⟩
    | some user =>
      if !verify_password password user.password_hash then
        ⟨false, "Invalid credentials", none, st, 0⟩
      else if !user.is_active then
        ⟨false, "Account is disabled", none, st, 0⟩
      else
        let r := update_last_login st user.id now
        ⟨true, "Login successful", some (strip_hash user), r.1, r.2⟩

end Auth

namespace Dashboard

/-- The percent-to-goal computation in show_progress
(app_dashboard_functions.py, lines 916 to 928), over exact rationals. -/
def percent_to_goal (start_weight current_weight goal_weight : ℚ) : ℚ :=
  let weight_change := start_weight - current_weight
  let p :=
    if goal_weight < start_weight then
      weight_change / (start_weight - goal_weight) * 100
    else
      |weight_change| / (goal_weight - start_weight) * 100
  max 0 (min 100 p)

/-- The progress percentage derived from a date-sorted weight history:
starting weight is the first entry, current weight the last. -/
def progress_percentage (weights : List ℚ) (goal_weight : ℚ) : Option ℚ :=
  match weights with
  | [] => none
  | w :: ws => some (percent_to_goal w ((w :: ws).getLastD w) goal_weight)

/-- The spec formula for percent-to-goal, stated from the spec text:
clamp to the unit-percent range of signed change over start minus goal when
the goal is below the start, else of absolute change over goal minus start. -/
def spec_percent (start_weight current_weight goal_weight : ℚ) : ℚ :=
  if goal_weight < start_weight then
    max 0 (min 100 ((start_weight - current_weight) / (start_weight - goal_weight) * 100))
  else
    max 0 (min 100 (|start_weight - current_weight| / (goal_weight - start_weight) * 100))

end Dashboard

namespace Coach

/-- The fixed configuration-instructions message returned when no API key is
configured. -/
def config_msg : String :=
  "⚠️ AI Coach is not configured. Please add your Gemini API key in the .env file."

/-- Optional profile context added to the prompt. -/
structure UserContext where
  age : String
  gender : String
  goal : String
  experience : String
deriving DecidableEq, Repr

/-- The fixed system instruction of AICoach.get_response. -/
def system_context_base : String :=
  "You are an expert AI Fitness Coach. You provide:\n" ++
  "            - Personalized fitness advice\n" ++
  "            - Workout tips and form corrections\n" ++
  "            - Nutrition guidance (especially Indian cuisine)\n" ++
  "            - Motivation and support\n" ++
  "            - Evidence-based fitness information\n" ++
  "            \n" ++
  "            Be friendly, encouraging, and professional. Keep responses concise but helpful.\n" ++
  "            "

/-- The combined prompt built by AICoach.get_response. -/
def build_prompt (user_message : String) (user_context : Option UserContext) : String :=
  let system_context :=
    match user_context with
    | none => system_context_base
    | some c =>
      system_context_base ++ "\n\nUser Profile:\n" ++
        "- Age: " ++ c.age ++ "\n" ++
        "- Gender: " ++ c.gender ++ "\n" ++
        "- Goal: " ++ c.goal ++ "\n" ++
        "- Experience: " ++ c.experience ++ "\n"
  system_context ++ "\n\nUser: " ++ user_message ++ "\n\nAI Coach:"

/-- AICoach.get_response. The remote call is an external effect modelled as a
function from the prompt to either a reply text or the text of the exception
it raised; the model-configured flag reflects whether initialization set a
model (no API key, or an initialization error, leaves it unset). -/
def get_response (model_configured : Bool) (send : String → Except String String)
    (user_message : String) (user_context : Option UserContext) : String :=
  if !model_configured then config_msg
  else
    match send (build_prompt user_message user_context) with
    | .ok t => t
    | .error e => "❌ Error getting response: " ++ e

end Coach

namespace Py

/-- Python str.lower for the ASCII strings this app compares after
lowercasing (diet preferences, goals, locations, levels, genders). -/
def lower (s : String) : String := ⟨s.data.map Char.toLower⟩

end Py

namespace Meals

/-- A food record of the meal planner table. -/
structure Food where
  name : String
  calories : ℚ
  protein : ℚ
  carbs : ℚ
  fat : ℚ
deriving DecidableEq, Repr

/-- MealPlanner._initialize_food_database, as a lookup from meal slot and diet
tag to the list of food records; absent keys give the empty list, matching the
dict .get with an empty-list default used at every access site. -/
def food_db : String → String → List Food
  | "breakfast", "vegetarian" =>
    [⟨"Poha", 250, 6, 45, 5⟩,
     ⟨"Upma", 220, 5, 40, 4⟩,
     ⟨"Idli (3) with Sambar", 180, 8, 35, 2⟩,
     ⟨"Dosa with Chutney", 200, 6, 38, 3⟩,
     ⟨"Paratha (2) with Curd", 320, 10, 45, 12⟩,
     ⟨"Oats Porridge", 180, 7, 30, 4⟩,
     ⟨"Vegetable Sandwich", 240, 8, 35, 8⟩]
  | "breakfast", "non-vegetarian" =>
    [⟨"Egg Bhurji with Roti (2)", 280, 18, 30, 10⟩,
     ⟨"Omelette (3 eggs) with Toast", 320, 22, 25, 15⟩,
     ⟨"Chicken Sandwich", 300, 25, 30, 10⟩]
  | "breakfast", "eggetarian" =>
    [⟨"Boiled Eggs (2) with Toast", 220, 16, 25, 8⟩,
     ⟨"Egg Dosa", 250, 14, 30, 8⟩]
  | "lunch", "vegetarian" =>
    [⟨"Dal Rice with Sabzi", 400, 15, 70, 8⟩,
     ⟨"Rajma Chawal", 450, 18, 75, 10⟩,
     ⟨"Chole Bhature", 550, 16, 85, 18⟩,
     ⟨"Paneer Butter Masala with Roti (3)", 480, 20, 55, 20⟩,
     ⟨"Veg Biryani", 420, 12, 70, 12⟩,
     ⟨"Sambar Rice with Papad", 380, 12, 68, 8⟩,
     ⟨"Palak Paneer with Roti (3)", 450, 22, 50, 18⟩]
  | "lunch", "non-vegetarian" =>
    [⟨"Chicken Curry with Rice", 520, 35, 60, 15⟩,
     ⟨"Fish Curry with Rice", 480, 32, 58, 12⟩,
     ⟨"Chicken Biryani", 580, 30, 70, 18⟩,
     ⟨"Mutton Curry with Roti (3)", 620, 38, 50, 28⟩,
     ⟨"Egg Curry with Rice", 450, 20, 62, 14⟩]
  | "lunch", "vegan" =>
    [⟨"Chana Masala with Rice", 420, 16, 72, 10⟩,
     ⟨"Mixed Veg Curry with Roti (3)", 380, 12, 65, 8⟩]
  | "dinner", "vegetarian" =>
    [⟨"Roti (3) with Dal and Sabzi", 380, 14, 60, 10⟩,
     ⟨"Khichdi with Curd", 320, 12, 55, 8⟩,
     ⟨"Paneer Tikka with Roti (2)", 420, 24, 40, 18⟩,
     ⟨"Vegetable Pulao with Raita", 360, 10, 62, 10⟩,
     ⟨"Aloo Gobi with Roti (3)", 340, 10, 58, 8⟩]
  | "dinner", "non-vegetarian" =>
    [⟨"Grilled Chicken with Roti (2)", 420, 38, 35, 12⟩,
     ⟨"Fish Fry with Salad", 350, 32, 20, 16⟩,
     ⟨"Chicken Tandoori with Roti (2)", 400, 36, 35, 10⟩,
     ⟨"Egg Curry with Roti (2)", 380, 18, 42, 14⟩]
  | "dinner", "vegan" =>
    [⟨"Tofu Curry with Rice", 380, 18, 58, 10⟩,
     ⟨"Mixed Dal with Roti (3)", 340, 16, 60, 6⟩]
  | "snacks", "vegetarian" =>
    [⟨"Fruit Chaat", 120, 2, 28, 1⟩,
     ⟨"Roasted Chana", 150, 8, 25, 3⟩,
     ⟨"Sprouts Salad", 100, 7, 18, 1⟩,
     ⟨"Dhokla (2 pieces)", 140, 5, 24, 3⟩,
     ⟨"Masala Chai with Biscuits", 160, 4, 28, 4⟩,
     ⟨"Banana with Peanut Butter", 200, 6, 30, 8⟩]
  | "snacks", "non-vegetarian" =>
    [⟨"Boiled Eggs (2)", 140, 12, 2, 10⟩,
     ⟨"Chicken Tikka (4 pieces)", 180, 24, 4, 8⟩]
  | "snacks", "vegan" =>
    [⟨"Mixed Nuts (30g)", 180, 6, 8, 15⟩,
     ⟨"Hummus with Veggies", 150, 6, 18, 6⟩]
  | _, _ => []

/-- The candidate pool built by MealPlanner._select_meal for a slot and a
lowercased diet preference. -/
def candidate_pool (meal_type diet_pref : String) : List Food :=
  if diet_pref = "vegetarian" then food_db meal_type "vegetarian"
  else if diet_pref = "non-vegetarian" then
    food_db meal_type "vegetarian" ++ food_db meal_type "non-vegetarian"
  else if diet_pref = "vegan" then
    let v := food_db meal_type "vegan"
    if v = [] then food_db meal_type "vegetarian" else v
  else if diet_pref = "eggetarian" then
    food_db meal_type "vegetarian" ++ food_db meal_type "eggetarian"
  else []

/-- The min-with-key of the Python builtin: scan left to right, replacing the
current best exactly when the key is strictly smaller, so the first minimum
wins ties. -/
def min_by_calories (target : ℚ) (x : Food) (xs : List Food) : Food :=
  xs.foldl (fun best y =>
    if |y.calories - target| < |best.calories - target| then y else best) x

/-- MealPlanner._select_meal. -/
def select_meal (meal_type diet_pref : String) (target_calories : ℚ) : Option Food :=
  match candidate_pool meal_type diet_pref with
  | [] => none
  | x :: xs => some (min_by_calories target_calories x xs)

/-- One meal entry of a day plan (slot label and chosen food). -/
structure MealEntry where
  slot : String
  food : Food
deriving DecidableEq, Repr

/-- A per-day entry of a meal plan. The wall-clock date stamp of the source is
omitted. -/
structure DailyMeals where
  day : Nat
  total_calories : ℚ
  total_protein : ℚ
  total_carbs : ℚ
  total_fat : ℚ
  meals : List MealEntry
deriving DecidableEq, Repr

/-- One iteration of the accumulation loop of generate_meal_plan: a selected
meal is appended and its macros added; a missing selection leaves the day
unchanged. -/
def add_meal (acc : DailyMeals) (slot : String) (m : Option Food) : DailyMeals :=
  match m with
  | none => acc
  | some f =>
    { acc with
      meals := acc.meals ++ [⟨slot, f⟩],
      total_calories := acc.total_calories + f.calories,
      total_protein := acc.total_protein + f.protein,
      total_carbs := acc.total_carbs + f.carbs,
      total_fat := acc.total_fat + f.fat }

/-- The body of the per-day loop of generate_meal_plan: slot targets are 25,
35, 30 and 10 percent of the daily calories. -/
def day_plan (diet_pref : String) (daily_calories : ℚ) (day : Nat) : DailyMeals :=
  let breakfast := select_meal "breakfast" diet_pref (daily_calories * 0.25)
  let lunch := select_meal "lunch" diet_pref (daily_calories * 0.35)
  let dinner := select_meal "dinner" diet_pref (daily_calories * 0.30)
  let snack := select_meal "snacks" diet_pref (daily_calories * 0.10)
  add_meal (add_meal (add_meal (add_meal ⟨day, 0, 0, 0, 0, []⟩
    "Breakfast" breakfast) "Lunch" lunch) "Dinner" dinner) "Snacks" snack

/-- The goal adjustment of generate_meal_plan: minus 500 for weight loss,
plus 300 for muscle gain, unchanged otherwise. -/
def adjusted_calories (goal : String) (calorie_target : ℚ) : ℚ :=
  if Py.lower goal = "weight loss" then calorie_target - 500
  else if Py.lower goal = "muscle gain" then calorie_target + 300
  else calorie_target

/-- MealPlanner.generate_meal_plan. -/
def generate_meal_plan (diet_preference : String) (calorie_target : ℚ)
    (num_days : Nat) (goal : String) : List DailyMeals :=
  let diet_pref := Py.lower diet_preference
  let daily_calories := adjusted_calories goal calorie_target
  (List.range num_days).map (fun i => day_plan diet_pref daily_calories (i + 1))

/-- The four diet preferences recognized by _select_meal. -/
def recognized_diets : List String :=
  ["vegetarian", "non-vegetarian", "vegan", "eggetarian"]

/-- The four meal slots of a day. -/
def meal_slots : List String := ["breakfast", "lunch", "dinner", "snacks"]

/-- The food item of a pool whose calories are nearest to the target, with
ties resolved in favor of the earliest item: everything strictly before it in
the pool is strictly farther from the target, everything after it no nearer. -/
def EarliestNearest (pool : List Food) (target : ℚ) (b : Food) : Prop :=
  ∃ l₁ l₂, pool = l₁ ++ b :: l₂ ∧
    (∀ m ∈ l₁, |b.calories - target| < |m.calories - target|) ∧
    (∀ m ∈ l₂, |b.calories - target| ≤ |m.calories - target|)

end Meals

namespace Workout

/-- An exercise record of the workout table. -/
structure Exercise where
  name : String
  sets : Nat
  reps : String
  rest : String
deriving DecidableEq, Repr

/-- WorkoutGenerator._initialize_exercises, as a lookup from location,
category and level to the exercise pool; an unknown key combination is a
Python KeyError, modelled as none. -/
def exercises_db : String → String → String → Option (List Exercise)
  | "home", "strength", "beginner" => some
    [⟨"Push-ups", 3, "8-12", "60s"⟩,
     ⟨"Bodyweight Squats", 3, "12-15", "60s"⟩,
     ⟨"Plank", 3, "30-45s", "45s"⟩,
     ⟨"Lunges", 3, "10 each leg", "60s"⟩,
     ⟨"Glute Bridges", 3, "12-15", "45s"⟩,
     ⟨"Wall Sit", 3, "30-45s", "60s"⟩,
     ⟨"Mountain Climbers", 3, "20", "45s"⟩,
     ⟨"Tricep Dips (chair)", 3, "8-12", "60s"⟩]
  | "home", "strength", "intermediate" => some
    [⟨"Diamond Push-ups", 4, "10-15", "60s"⟩,
     ⟨"Jump Squats", 4, "12-15", "60s"⟩,
     ⟨"Side Plank", 3, "45s each", "45s"⟩,
     ⟨"Bulgarian Split Squats", 3, "12 each", "60s"⟩,
     ⟨"Pike Push-ups", 3, "10-12", "60s"⟩,
     ⟨"Single Leg Deadlift", 3, "10 each", "60s"⟩,
     ⟨"Burpees", 4, "10-12", "60s"⟩]
  | "home", "strength", "advanced" => some
    [⟨"One-Arm Push-ups", 4, "6-8 each", "90s"⟩,
     ⟨"Pistol Squats", 4, "8-10 each", "90s"⟩,
     ⟨"Handstand Push-ups", 3, "5-8", "120s"⟩,
     ⟨"Archer Push-ups", 4, "8-10 each", "90s"⟩,
     ⟨"Dragon Flags", 3, "6-8", "120s"⟩]
  | "home", "cardio", "beginner" => some
    [⟨"Jumping Jacks", 3, "30s", "30s"⟩,
     ⟨"High Knees", 3, "30s", "30s"⟩,
     ⟨"Butt Kicks", 3, "30s", "30s"⟩,
     ⟨"Step-ups", 3, "45s", "45s"⟩]
  | "home", "cardio", "intermediate" => some
    [⟨"Burpees", 4, "45s", "30s"⟩,
     ⟨"Mountain Climbers", 4, "45s", "30s"⟩,
     ⟨"Jump Rope", 4, "60s", "30s"⟩,
     ⟨"Box Jumps", 3, "12-15", "60s"⟩]
  | "home", "cardio", "advanced" => some
    [⟨"Burpee Box Jumps", 4, "60s", "30s"⟩,
     ⟨"Sprint Intervals", 6, "30s sprint", "30s"⟩,
     ⟨"Plyometric Push-ups", 4, "10-12", "60s"⟩]
  | "gym", "strength", "beginner" => some
    [⟨"Barbell Bench Press", 3, "8-12", "90s"⟩,
     ⟨"Lat Pulldown", 3, "10-12", "60s"⟩,
     ⟨"Leg Press", 3, "12-15", "90s"⟩,
     ⟨"Dumbbell Shoulder Press", 3, "10-12", "60s"⟩,
     ⟨"Cable Rows", 3, "10-12", "60s"⟩,
     ⟨"Leg Curl", 3, "12-15", "60s"⟩]
  | "gym", "strength", "intermediate" => some
    [⟨"Barbell Squat", 4, "8-10", "120s"⟩,
     ⟨"Deadlift", 4, "6-8", "120s"⟩,
     ⟨"Incline Dumbbell Press", 4, "8-12", "90s"⟩,
     ⟨"Pull-ups", 4, "8-12", "90s"⟩,
     ⟨"Romanian Deadlift", 3, "10-12", "90s"⟩,
     ⟨"Barbell Rows", 4, "8-10", "90s"⟩]
  | "gym", "strength", "advanced" => some
    [⟨"Back Squat (Heavy)", 5, "5", "180s"⟩,
     ⟨"Deadlift (Heavy)", 5, "5", "180s"⟩,
     ⟨"Weighted Pull-ups", 4, "6-8", "120s"⟩,
     ⟨"Front Squat", 4, "6-8", "120s"⟩,
     ⟨"Overhead Press", 4, "6-8", "120s"⟩]
  | "gym", "cardio", "beginner" => some
    [⟨"Treadmill Walk/Jog", 1, "20 min", "0s"⟩,
     ⟨"Stationary Bike", 1, "15 min", "0s"⟩,
     ⟨"Elliptical", 1, "15 min", "0s"⟩]
  | "gym", "cardio", "intermediate" => some
    [⟨"Treadmill HIIT", 8, "1 min sprint/1 min walk", "0s"⟩,
     ⟨"Rowing Machine", 1, "20 min", "0s"⟩,
     ⟨"Stair Climber", 1, "15 min", "0s"⟩]
  | "gym", "cardio", "advanced" => some
    [⟨"Sprint Intervals", 10, "30s sprint/30s rest", "0s"⟩,
     ⟨"Assault Bike", 1, "20 min", "0s"⟩,
     ⟨"Rowing HIIT", 8, "500m sprint", "60s"⟩]
  | _, _, _ => none

/-- An item of the static warmup or cooldown routine. -/
structure RoutineItem where
  name : String
  duration : String
deriving DecidableEq, Repr

/-- WorkoutGenerator._get_warmup. -/
def get_warmup : List RoutineItem :=
  [⟨"Arm Circles", "30s"⟩,
   ⟨"Leg Swings", "30s each leg"⟩,
   ⟨"Torso Twists", "30s"⟩,
   ⟨"Light Cardio (Jog in place)", "2 min"⟩]

/-- WorkoutGenerator._get_cooldown. -/
def get_cooldown : List RoutineItem :=
  [⟨"Walking", "3 min"⟩,
   ⟨"Hamstring Stretch", "30s each leg"⟩,
   ⟨"Quad Stretch", "30s each leg"⟩,
   ⟨"Shoulder Stretch", "30s each arm"⟩,
   ⟨"Deep Breathing", "1 min"⟩]

/-- A generated workout plan; the wall-clock date stamp is omitted. -/
structure WorkoutPlan where
  workout_kind : String
  location : String
  level : String
  duration : ℤ
  warmup : List RoutineItem
  exercises : List Exercise
  cooldown : List RoutineItem
deriving DecidableEq, Repr

/-- The exercise pool chosen by generate_workout from the workout type: the
literal strings Strength Training, Cardio and HIIT select a table pool, and
anything else is the Mixed branch, built with two random samples. -/
def workout_pool (sample : List Exercise → Nat → List Exercise)
    (loc lvl workout_type : String) : Option (List Exercise) :=
  if workout_type = "Strength Training" then exercises_db loc "strength" lvl
  else if workout_type = "Cardio" ∨ workout_type = "HIIT" then exercises_db loc "cardio" lvl
  else do
    let sp ← exercises_db loc "strength" lvl
    let cp ← exercises_db loc "cardio" lvl
    pure (sample sp 3 ++ sample cp 2)

/-- WorkoutGenerator.generate_workout. Sampling without replacement
(random.sample) is an external effect and is passed in as a function; Python
floor division on the duration is Int.fdiv. -/
def generate_workout (sample : List Exercise → Nat → List Exercise)
    (location workout_type experience_level : String) (duration_minutes : ℤ) :
    Option WorkoutPlan :=
  let loc := Py.lower location
  let lvl := Py.lower experience_level
  match workout_pool sample loc lvl workout_type with
  | none => none
  | some exercise_pool =>
    let num_exercises : ℤ := min (exercise_pool.length : ℤ) (max 4 (duration_minutes.fdiv 10))
    let selected := sample exercise_pool (min num_exercises (exercise_pool.length : ℤ)).toNat
    some
      { workout_kind := workout_type,
        location := loc.capitalize,
        level := lvl.capitalize,
        duration := duration_minutes,
        warmup := get_warmup,
        exercises := selected,
        cooldown := get_cooldown }

/-- The contract of random.sample on a duplicate-free population: asking for
at most the population size yields exactly that many pairwise-distinct
elements of the population. -/
def SampleContract (sample : List Exercise → Nat → List Exercise) : Prop :=
  ∀ (l : List Exercise) (k : Nat), l.Nodup → k ≤ l.length →
    (sample l k).length = k ∧ (sample l k).Nodup ∧ ∀ x ∈ sample l k, x ∈ l

end Workout

namespace BodyFat

/-- The measurements dict passed to BodyFatPredictor.predict; the fields used
by the empirical branch. -/
structure Measurements where
  gender : String
  height : ℝ
  weight : ℝ
  abdomen : ℝ
  neck : ℝ
  hip : ℝ

/-- The male Navy-method denominator. -/
noncomputable def male_denom (waist_minus_neck height : ℝ) : ℝ :=
  1.0324 - 0.19077 * Real.logb 10 waist_minus_neck + 0.15456 * Real.logb 10 height

/-- The female Navy-method denominator. -/
noncomputable def female_denom (waist_plus_hip_minus_neck height : ℝ) : ℝ :=
  1.29579 - 0.35004 * Real.logb 10 waist_plus_hip_minus_neck + 0.22100 * Real.logb 10 height

/-- BodyFatPredictor._empirical_prediction: the Navy circumference formula
followed by the clamp to the 5 to 50 band. -/
noncomputable def empirical_prediction (m : Measurements) : ℝ :=
  let gender := Py.lower m.gender
  let body_fat :=
    if gender = "male" then
      495 / male_denom (m.abdomen - m.neck) m.height - 450
    else
      495 / female_denom (m.abdomen + m.hip - m.neck) m.height - 450
  max 5.0 (min 50.0 body_fat)

/-- BodyFatPredictor.predict: the trained regression branch is an external
model passed in as a function; untrained prediction is the empirical formula. -/
noncomputable def predict (is_trained : Bool) (model : Measurements → ℝ)
    (m : Measurements) : ℝ :=
  if !is_trained then empirical_prediction m
  else max 5.0 (min 50.0 (model m))

end BodyFat

namespace Store

/-- A storage-layer fault: a UNIQUE or foreign-key constraint violation
(sqlite3.IntegrityError) or any other I/O failure raised by sqlite. -/
inductive Fault
  | integrity
  | ioError
deriving DecidableEq, Repr

/-- A row of the progress table. -/
structure ProgressEntry where
  user_id : Nat
  date : String
  weight : ℚ
  body_fat : Option ℚ
  waist : Option ℚ
  chest : Option ℚ
  arms : Option ℚ
  notes : String
deriving DecidableEq, Repr

/-- A row of the profiles table; only the fields needed here. -/
structure ProfileRow where
  user_id : Nat
  name : String
  profile_complete : Bool
deriving DecidableEq, Repr

/-- Database.create_user under a storage-fault oracle: the only handler is
except sqlite3.IntegrityError (returning None); any other storage exception
propagates to the caller. -/
def create_user (fault : Option Fault) (st : Auth.DbState)
    (username email password_hash : String) : Except Fault (Option Nat × Auth.DbState) :=
  match fault with
  | some .integrity => .ok (none, st)
  | some .ioError => .error .ioError
  | none =>
    .ok (some st.next_id,
      { users := st.users ++
          [{ id := st.next_id, username := username, email := email,
             password_hash := password_hash, is_active := true, last_login := none }],
        next_id := st.next_id + 1 })

/-- Database.get_user_by_username under a storage-fault oracle: the method has
no exception handler, so every storage exception propagates. -/
def get_user_by_username (fault : Option Fault) (st : Auth.DbState)
    (username : String) : Except Fault (Option Auth.User) :=
  match fault with
  | some f => .error f
  | none => .ok (Auth.get_user_by_username st username)

/-- Database.get_user_by_email under a storage-fault oracle: no handler. -/
def get_user_by_email (fault : Option Fault) (st : Auth.DbState)
    (email : String) : Except Fault (Option Auth.User) :=
  match fault with
  | some f => .error f
  | none => .ok (Auth.get_user_by_email st email)

/-- Database.update_last_login under a storage-fault oracle: no handler. -/
def update_last_login (fault : Option Fault) (st : Auth.DbState)
    (user_id now : Nat) : Except Fault Auth.DbState :=
  match fault with
  | some f => .error f
  | none => .ok (Auth.update_last_login st user_id now).1

/-- Database.get_progress_history under a storage-fault oracle: no handler. -/
def get_progress_history (fault : Option Fault) (entries : List ProgressEntry)
    (user_id : Nat) : Except Fault (List ProgressEntry) :=
  match fault with
  | some f => .error f
  | none => .ok (entries.filter (fun e => e.user_id = user_id))

/-- Database.create_profile under a storage-fault oracle: except Exception
catches everything and returns False. -/
def create_profile (fault : Option Fault) (rows : List ProfileRow)
    (row : ProfileRow) : Except Fault (Bool × List ProfileRow) :=
  match fault with
  | some _ => .ok (false, rows)
  | none => .ok (true, rows ++ [row])

/-- Database.update_profile under a storage-fault oracle: except Exception
catches everything and returns False. -/
def update_profile (fault : Option Fault) (rows : List ProfileRow)
    (row : ProfileRow) : Except Fault (Bool × List ProfileRow) :=
  match fault with
  | some _ => .ok (false, rows)
  | none =>
    .ok (true, rows.map (fun r => if r.user_id = row.user_id then row else r))

/-- Database.add_progress_entry under a storage-fault oracle: except
Exception catches everything and returns False. -/
def add_progress_entry (fault : Option Fault) (entries : List ProgressEntry)
    (entry : ProgressEntry) : Except Fault (Bool × List ProgressEntry) :=
  match fault with
  | some _ => .ok (false, entries)
  | none => .ok (true, entries ++ [entry])

end Store

/-- C6: for every non-empty progress history and every goal weight, the
computed percent-to-goal equals the clamped spec formula (signed change over
start minus goal when the goal is below the start, absolute change over goal
minus start otherwise), and the result always lies between 0 and 100. -/
theorem progress_percent_clamped :
    ∀ (weights : List ℚ) (goal_weight : ℚ), weights ≠ [] →
      ∃ p, Dashboard.progress_percentage weights goal_weight = some p ∧
        p = Dashboard.spec_percent (weights.headD 0) (weights.getLastD 0) goal_weight ∧
        0 ≤ p ∧ p ≤ 100 := by
  intro weights goal hne
  match weights with
  | [] => exact absurd rfl hne
  | w :: ws =>
    refine ⟨_, rfl, ?_, le_max_left _ _, max_le (by norm_num) (min_le_left _ _)⟩
    have hlast : (w :: ws).getLastD w = (w :: ws).getLastD 0 := by
      rw [List.getLastD_cons, List.getLastD_cons]
    rw [Dashboard.percent_to_goal, Dashboard.spec_percent, hlast]
    simp only [List.headD_cons]
    split_ifs <;> rfl

/-- Witness for C6 at a concrete overshooting history. -/
theorem progress_percent_clamped_witness :
    ∃ p, Dashboard.progress_percentage [(80 : ℚ), 50] 70 = some p ∧
      p = Dashboard.spec_percent (([(80 : ℚ), 50]).headD 0) (([(80 : ℚ), 50]).getLastD 0) 70 ∧
      0 ≤ p ∧ p ≤ 100 :=
  progress_percent_clamped [(80 : ℚ), 50] 70 (by simp)

/-- C7 counterexample: a storage failure inside a read operation is not
caught at the store boundary; get_user_by_username propagates it. -/
theorem store_read_propagates :
    Store.get_user_by_username (some Store.Fault.ioError) ⟨[], 0⟩ "alice"
      = Except.error Store.Fault.ioError := rfl

/-- C7 amended: only create_profile, update_profile and add_progress_entry
catch every storage failure and surface it as a boolean; create_user catches
the constraint violation only (returning None) and propagates other storage
errors; the read operations and update_last_login propagate every storage
failure. -/
theorem store_fault_boundary :
    (∀ fault (entries : List Store.ProgressEntry) e,
      ∃ r, Store.add_progress_entry fault entries e = Except.ok r) ∧
    (∀ fault (rows : List Store.ProfileRow) row,
      ∃ r, Store.create_profile fault rows row = Except.ok r) ∧
    (∀ fault (rows : List Store.ProfileRow) row,
      ∃ r, Store.update_profile fault rows row = Except.ok r) ∧
    (∀ (st : Auth.DbState) u e h,
      Store.create_user (some Store.Fault.integrity) st u e h = Except.ok (none, st)) ∧
    (∀ (st : Auth.DbState) u e h,
      Store.create_user (some Store.Fault.ioError) st u e h = Except.error Store.Fault.ioError) ∧
    (∀ f (st : Auth.DbState) u,
      Store.get_user_by_username (some f) st u = Except.error f) ∧
    (∀ f (st : Auth.DbState) e,
      Store.get_user_by_email (some f) st e = Except.error f) ∧
    (∀ f (st : Auth.DbState) uid now,
      Store.update_last_login (some f) st uid now = Except.error f) ∧
    (∀ f (entries : List Store.ProgressEntry) uid,
      Store.get_progress_history (some f) entries uid = Except.error f) := by
  refine ⟨?_, ?_, ?_, ?_, ?_, ?_, ?_, ?_, ?_⟩ <;>
    intros <;> first
      | (rename_i fault _ _; cases fault <;> exact ⟨_, rfl⟩)
      | rfl

/-- C1 counterexample: with a stored user, an empty password (which does not
verify against any hash under this verifier) makes login fail with the
input-required message, not with "Invalid credentials". -/
theorem login_empty_password_distinct_message :
    (Auth.login_user (fun _ _ => false) 0
        ⟨[⟨1, "alice", "a@b.co", "H", true, none⟩], 2⟩ "alice" "").msg
      = "Username/email and password are required" ∧
    (Auth.login_user (fun _ _ => false) 0
        ⟨[⟨1, "alice", "a@b.co", "H", true, none⟩], 2⟩ "alice" "").msg
      ≠ "Invalid credentials" ∧
    Auth.find_user ⟨[⟨1, "alice", "a@b.co", "H", true, none⟩], 2⟩ "alice"
      = some ⟨1, "alice", "a@b.co", "H", true, none⟩ :=
  ⟨rfl, by decide, rfl⟩

/-- C1 amended: for every non-empty identifier and non-empty password, a
stored user whose hash the password does not verify against and an identifier
matching no stored username or email both make login fail with exactly the
same outcome, message "Invalid credentials". -/
theorem login_failure_uniform (verify : String → String → Bool) (now : Nat)
    (st : Auth.DbState) (ident password : String)
    (hid : ident ≠ "") (hpw : password ≠ "") :
    (∀ u, Auth.find_user st ident = some u →
      verify password u.password_hash = false →
      Auth.login_user verify now st ident password
        = ⟨false, "Invalid credentials", none, st, 0⟩) ∧
    (Auth.find_user st ident = none →
      Auth.login_user verify now st ident password
        = ⟨false, "Invalid credentials", none, st, 0⟩) := by
  constructor
  · intro u hu hv
    simp [Auth.login_user, hid, hpw, hu, hv]
  · intro hn
    simp [Auth.login_user, hid, hpw, hn]

/-- Witness for C1 at a concrete store: wrong password for a stored user and
an unknown identifier produce identical outcomes. -/
theorem login_failure_uniform_witness :
    Auth.login_user (fun _ _ => false) 0
        ⟨[⟨1, "alice", "a@b.co", "H", true, none⟩], 2⟩ "alice" "pw"
      = ⟨false, "Invalid credentials", none,
          ⟨[⟨1, "alice", "a@b.co", "H", true, none⟩], 2⟩, 0⟩ ∧
    Auth.login_user (fun _ _ => false) 0
        ⟨[⟨1, "alice", "a@b.co", "H", true, none⟩], 2⟩ "bob" "pw"
      = ⟨false, "Invalid credentials", none,
          ⟨[⟨1, "alice", "a@b.co", "H", true, none⟩], 2⟩, 0⟩ :=
  ⟨(login_failure_uniform (fun _ _ => false) 0 _ "alice" "pw" (by decide) (by decide)).1
      ⟨1, "alice", "a@b.co", "H", true, none⟩ rfl rfl,
   (login_failure_uniform (fun _ _ => false) 0 _ "bob" "pw" (by decide) (by decide)).2 rfl⟩

/-- C8: a successful register performs exactly one store write (the account
creation) and a successful login exactly one (the last-login update); every
failing register or login performs no write and leaves the store unchanged. -/
theorem auth_write_effects :
    (∀ (hash_password : String → String) (st : Auth.DbState) (u e p : String),
      ((Auth.register_user hash_password st u e p).ok = true →
        (Auth.register_user hash_password st u e p).writes = 1 ∧
        (Auth.register_user hash_password st u e p).state.users
          = st.users ++ [⟨st.next_id, u, e, hash_password p, true, none⟩]) ∧
      ((Auth.register_user hash_password st u e p).ok = false →
        (Auth.register_user hash_password st u e p).writes = 0 ∧
        (Auth.register_user hash_password st u e p).state = st)) ∧
    (∀ (verify : String → String → Bool) (now : Nat) (st : Auth.DbState)
        (ident pw : String),
      ((Auth.login_user verify now st ident pw).ok = true →
        (Auth.login_user verify now st ident pw).writes = 1 ∧
        ∃ u, Auth.find_user st ident = some u ∧
          (Auth.login_user verify now st ident pw).state
            = (Auth.update_last_login st u.id now).1) ∧
      ((Auth.login_user verify now st ident pw).ok = false →
        (Auth.login_user verify now st ident pw).writes = 0 ∧
        (Auth.login_user verify now st ident pw).state = st)) := by
  constructor
  · intro hp st u e p
    simp only [Auth.register_user]
    split
    · exact ⟨fun h => by simp_all, fun _ => ⟨rfl, rfl⟩⟩
    · split
      · exact ⟨fun h => by simp_all, fun _ => ⟨rfl, rfl⟩⟩
      · split
        · exact ⟨fun h => by simp_all, fun _ => ⟨rfl, rfl⟩⟩
        · split
          · exact ⟨fun h => by simp_all, fun _ => ⟨rfl, rfl⟩⟩
          · split
            · exact ⟨fun h => by simp_all, fun _ => ⟨rfl, rfl⟩⟩
            · split
              next uid st2 w heq =>
                refine ⟨fun _ => ?_, fun h => by simp_all⟩
                unfold Auth.create_user at heq
                split at heq
                · simp at heq
                · simp only [Prod.mk.injEq] at heq
                  obtain ⟨-, h2, h3⟩ := heq
                  subst h2; subst h3
                  exact ⟨rfl, rfl⟩
              next st2 w heq =>
                refine ⟨fun h => by simp_all, fun _ => ?_⟩
                unfold Auth.create_user at heq
                split at heq
                · simp only [Prod.mk.injEq] at heq
                  obtain ⟨-, h2, h3⟩ := heq
                  subst h2; subst h3
                  exact ⟨rfl, rfl⟩
                · simp at heq
  · intro verify now st ident pw
    simp only [Auth.login_user]
    split
    · exact ⟨fun h => by simp_all, fun _ => ⟨rfl, rfl⟩⟩
    · split
      next hn =>
        exact ⟨fun h => by simp_all, fun _ => ⟨rfl, rfl⟩⟩
      next user hu =>
        split
        · exact ⟨fun h => by simp_all, fun _ => ⟨rfl, rfl⟩⟩
        · split
          · exact ⟨fun h => by simp_all, fun _ => ⟨rfl, rfl⟩⟩
          · exact ⟨fun _ => ⟨rfl, user, hu, rfl⟩, fun h => by simp_all⟩

/-- Witness for C8: a concrete successful registration and a concrete
successful login, each with exactly one write. -/
theorem auth_write_effects_witness :
    ((Auth.register_user (fun s => s) ⟨[], 0⟩ "alice" "a@b.co" "Passw0rd").writes = 1 ∧
      (Auth.register_user (fun s => s) ⟨[], 0⟩ "alice" "a@b.co" "Passw0rd").state.users
        = ([] : List Auth.User)
            ++ [⟨0, "alice", "a@b.co", (fun s : String => s) "Passw0rd", true, none⟩]) ∧
    ((Auth.login_user (fun p h => p == h) 5
        ⟨[⟨1, "bob", "b@c.de", "pw123456", true, none⟩], 2⟩ "bob" "pw123456").writes = 1 ∧
      ∃ u, Auth.find_user ⟨[⟨1, "bob", "b@c.de", "pw123456", true, none⟩], 2⟩ "bob"
          = some u ∧
        (Auth.login_user (fun p h => p == h) 5
            ⟨[⟨1, "bob", "b@c.de", "pw123456", true, none⟩], 2⟩ "bob" "pw123456").state
          = (Auth.update_last_login
              ⟨[⟨1, "bob", "b@c.de", "pw123456", true, none⟩], 2⟩ u.id 5).1) :=
  ⟨(auth_write_effects.1 (fun s => s) ⟨[], 0⟩ "alice" "a@b.co" "Passw0rd").1 (by decide),
   (auth_write_effects.2 (fun p h => p == h) 5 _ "bob" "pw123456").1 (by decide)⟩

/-- Failure of the anchored username character-class match, characterized:
for a string of length at least 3, the match fails exactly when some
character is outside the class and the string is not saved by the
trailing-newline tolerance of the Python dollar anchor. -/
lemma py_word_match_false_iff (u : String) (h3 : 3 ≤ u.length) :
    Auth.py_match_class_anchored Auth.is_word_char u = false ↔
      ((∃ c ∈ u.data, Auth.is_word_char c = false) ∧
        ¬(u.data.getLast? = some '\n' ∧
          ∀ c ∈ u.data.dropLast, Auth.is_word_char c = true)) := by
  have hdl : u.data.length = u.length := rfl
  by_cases hl : u.data.getLast? = some '\n'
  · have hlen2 : u.data.dropLast.length = u.length - 1 := by
      rw [List.length_dropLast, hdl]
    have hne : u.data.dropLast ≠ [] := by
      intro h
      rw [h] at hlen2
      simp at hlen2
      omega
    rw [show Auth.py_match_class_anchored Auth.is_word_char u
        = (!u.data.dropLast.isEmpty && u.data.dropLast.all Auth.is_word_char) from by
      simp [Auth.py_match_class_anchored, hl]]
    have hie : u.data.dropLast.isEmpty = false := by simp [hne]
    simp only [hie, Bool.not_false, Bool.true_and]
    constructor
    · intro hfalse
      rcases List.all_eq_false.mp hfalse with ⟨c, hc, hbad⟩
      refine ⟨⟨c, List.dropLast_subset _ hc, by simpa using hbad⟩, ?_⟩
      rintro ⟨-, hall⟩
      exact hbad (hall c hc)
    · rintro ⟨_, hnexc⟩
      have hnall : ¬∀ c ∈ u.data.dropLast, Auth.is_word_char c = true :=
        fun h => hnexc ⟨hl, h⟩
      push_neg at hnall
      obtain ⟨c, hc, hbad⟩ := hnall
      exact List.all_eq_false.mpr ⟨c, hc, by simp [hbad]⟩
  · have hne : u.data ≠ [] := by
      intro h
      rw [← hdl, h] at h3
      simp at h3
    rw [show Auth.py_match_class_anchored Auth.is_word_char u
        = (!u.data.isEmpty && u.data.all Auth.is_word_char) from by
      simp [Auth.py_match_class_anchored, hl]]
    have hie : u.data.isEmpty = false := by simp [hne]
    simp only [hie, Bool.not_false, Bool.true_and]
    constructor
    · intro hfalse
      rcases List.all_eq_false.mp hfalse with ⟨c, hc, hbad⟩
      exact ⟨⟨c, hc, by simpa using hbad⟩, fun hcon => hl hcon.1⟩
    · rintro ⟨⟨c, hc, hbad⟩, -⟩
      exact List.all_eq_false.mpr ⟨c, hc, by simp [hbad]⟩

/-- When neither the username nor the email is already stored, the INSERT of
create_user succeeds and appends the new account row. -/
lemma create_user_of_no_dup (st : Auth.DbState) (u e h : String)
    (hu : (Auth.get_user_by_username st u).isSome = false)
    (he : (Auth.get_user_by_email st e).isSome = false) :
    Auth.create_user st u e h
      = (some st.next_id,
         ⟨st.users ++ [⟨st.next_id, u, e, h, true, none⟩], st.next_id + 1⟩, 1) := by
  have hu' : ∀ x ∈ st.users, ¬(x.username = u) := by
    intro x hx hxx
    have hs : (Auth.get_user_by_username st u).isSome = true := by
      simp [Auth.get_user_by_username, List.find?_isSome]
      exact ⟨x, hx, by simp [hxx]⟩
    rw [hu] at hs
    cases hs
  have he' : ∀ x ∈ st.users, ¬(x.email = e) := by
    intro x hx hxx
    have hs : (Auth.get_user_by_email st e).isSome = true := by
      simp [Auth.get_user_by_email, List.find?_isSome]
      exact ⟨x, hx, by simp [hxx]⟩
    rw [he] at hs
    cases hs
  unfold Auth.create_user
  rw [if_neg]
  intro hany
  rcases List.any_eq_true.mp hany with ⟨x, hx, hor⟩
  rcases Bool.or_eq_true_iff.mp hor with hcase | hcase
  · exact hu' x hx (by simpa using hcase)
  · exact he' x hx (by simpa using hcase)

/-- C5 counterexample: an empty username fails with the required-message (not
the at-least-3 message) although it is shorter than 3 characters; a username
whose only offending character is a single trailing newline passes the
character-class validation and register proceeds to the email check; an empty
password fails with the required-message, not the length message. -/
theorem register_validation_gaps :
    (Auth.register_user (fun s => s) ⟨[], 0⟩ "" "a@b.co" "Passw0rd").msg
      = "Username is required" ∧
    Auth.validate_username "abc\n" = (true, "") ∧
    (Auth.register_user (fun s => s) ⟨[], 0⟩ "abc\n" "" "Passw0rd").msg
      = "Email is required" ∧
    (Auth.register_user (fun s => s) ⟨[], 0⟩ "alice" "a@b.co" "").msg
      = "Password is required" := by
  refine ⟨rfl, by decide, rfl, rfl⟩

/-- C5 amended: register validates in short-circuit order with the message of
the first violated rule, where the length and content messages apply to
non-empty inputs (an empty username or password gets a required-message
first), and where the username character-class rule tolerates a single
trailing newline, as the Python dollar anchor does. -/
theorem register_validation_order :
    (∀ (hp : String → String) (st : Auth.DbState) (u e p : String), u ≠ "" →
      u.length < 3 →
      Auth.register_user hp st u e p
        = ⟨false, "Username must be at least 3 characters", none, st, 0⟩) ∧
    (∀ (hp : String → String) (st : Auth.DbState) (u e p : String),
      20 < u.length →
      Auth.register_user hp st u e p
        = ⟨false, "Username must be less than 20 characters", none, st, 0⟩) ∧
    (∀ (hp : String → String) (st : Auth.DbState) (u e p : String),
      3 ≤ u.length → u.length ≤ 20 →
      (∃ c ∈ u.data, Auth.is_word_char c = false) →
      ¬(u.data.getLast? = some '\n' ∧ ∀ c ∈ u.data.dropLast, Auth.is_word_char c = true) →
      Auth.register_user hp st u e p
        = ⟨false, "Username can only contain letters, numbers, and underscores", none, st, 0⟩) ∧
    (∀ (hp : String → String) (st : Auth.DbState) (u e p : String),
      (Auth.validate_username u).1 = true → Auth.py_email_match e = false →
      Auth.register_user hp st u e p
        = ⟨false, if e = "" then "Email is required" else "Invalid email format", none, st, 0⟩) ∧
    (∀ (hp : String → String) (st : Auth.DbState) (u e p : String),
      (Auth.validate_username u).1 = true → (Auth.validate_email e).1 = true → p ≠ "" →
      (p.length < 8 →
        Auth.register_user hp st u e p
          = ⟨false, "Password must be at least 8 characters", none, st, 0⟩) ∧
      (8 ≤ p.length → (∀ c ∈ p.data, c.isAlpha = false) →
        Auth.register_user hp st u e p
          = ⟨false, "Password must contain at least one letter", none, st, 0⟩) ∧
      (8 ≤ p.length → (∃ c ∈ p.data, c.isAlpha = true) → (∀ c ∈ p.data, c.isDigit = false) →
        Auth.register_user hp st u e p
          = ⟨false, "Password must contain at least one number", none, st, 0⟩)) ∧
    (∀ (hp : String → String) (st : Auth.DbState) (u e p : String),
      (Auth.validate_username u).1 = true → (Auth.validate_email e).1 = true →
      (Auth.validate_password p).1 = true →
      Auth.register_user hp st u e p
        = (if (Auth.get_user_by_username st u).isSome then
            ⟨false, "Username already exists", none, st, 0⟩
          else if (Auth.get_user_by_email st e).isSome then
            ⟨false, "Email already registered", none, st, 0⟩
          else
            ⟨true, "Registration successful", some st.next_id,
              ⟨st.users ++ [⟨st.next_id, u, e, hp p, true, none⟩], st.next_id + 1⟩, 1⟩)) := by
  refine ⟨?_, ?_, ?_, ?_, ?_, ?_⟩
  · intro hp st u e p h0 h3
    have hv : Auth.validate_username u = (false, "Username must be at least 3 characters") := by
      unfold Auth.validate_username
      rw [if_neg h0, if_pos h3]
    simp [Auth.register_user, hv]
  · intro hp st u e p h20
    have h0 : ¬(u = "") := by
      intro h; subst h; simp at h20
    have h3 : ¬(u.length < 3) := by omega
    have hv : Auth.validate_username u = (false, "Username must be less than 20 characters") := by
      unfold Auth.validate_username
      rw [if_neg h0, if_neg h3, if_pos h20]
    simp [Auth.register_user, hv]
  · intro hp st u e p h3 h20 hbad hexc
    have h0 : ¬(u = "") := by
      intro h; subst h; simp at h3
    have h3' : ¬(u.length < 3) := by omega
    have h20' : ¬(20 < u.length) := by omega
    have hmatch : Auth.py_match_class_anchored Auth.is_word_char u = false :=
      (py_word_match_false_iff u h3).mpr ⟨hbad, hexc⟩
    have hv : Auth.validate_username u
        = (false, "Username can only contain letters, numbers, and underscores") := by
      simp [Auth.validate_username, h0, h3', h20', hmatch]
    simp [Auth.register_user, hv]
  · intro hp st u e p hu hm
    have hv : Auth.validate_email e
        = (false, if e = "" then "Email is required" else "Invalid email format") := by
      by_cases h0 : e = "" <;> simp [Auth.validate_email, h0, hm]
    simp [Auth.register_user, hu, hv]
  · intro hp st u e p hu he h0
    refine ⟨?_, ?_, ?_⟩
    · intro h8
      have hv : Auth.validate_password p = (false, "Password must be at least 8 characters") := by
        unfold Auth.validate_password
        rw [if_neg h0, if_pos h8]
      simp [Auth.register_user, hu, he, hv]
    · intro h8 hall
      have h8' : ¬(p.length < 8) := by omega
      have hany : p.data.any (fun c => c.isAlpha) = false := by
        apply List.any_eq_false.mpr
        intro c hc
        simp [hall c hc]
      have hv : Auth.validate_password p
          = (false, "Password must contain at least one letter") := by
        simp [Auth.validate_password, h0, h8', hany]
      simp [Auth.register_user, hu, he, hv]
    · intro h8 hletter hdig
      have h8' : ¬(p.length < 8) := by omega
      have hanyl : p.data.any (fun c => c.isAlpha) = true := by
        apply List.any_eq_true.mpr
        obtain ⟨c, hc, hca⟩ := hletter
        exact ⟨c, hc, by simp [hca]⟩
      have hanyd : p.data.any (fun c => c.isDigit) = false := by
        apply List.any_eq_false.mpr
        intro c hc
        simp [hdig c hc]
      have hv : Auth.validate_password p
          = (false, "Password must contain at least one number") := by
        simp [Auth.validate_password, h0, h8', hanyl, hanyd]
      simp [Auth.register_user, hu, he, hv]
  · intro hp st u e p hu he hpw
    cases hdu : (Auth.get_user_by_username st u).isSome
    · cases hde : (Auth.get_user_by_email st e).isSome
      · simp [Auth.register_user, hu, he, hpw, hdu, hde,
          create_user_of_no_dup st u e (hp p) hdu hde]
      · simp [Auth.register_user, hu, he, hpw, hdu, hde]
    · simp [Auth.register_user, hu, he, hpw, hdu]

/-- Witness for C5: the spec test inputs ab (2 characters) and short1 (6
characters), plus an ill-shaped email, fail with the messages of the claim. -/
theorem register_validation_order_witness :
    Auth.register_user (fun s => s) ⟨[], 0⟩ "ab" "a@b.co" "Passw0rd"
      = ⟨false, "Username must be at least 3 characters", none, ⟨[], 0⟩, 0⟩ ∧
    Auth.register_user (fun s => s) ⟨[], 0⟩ "alice" "bad-email" "Passw0rd"
      = ⟨false, "Invalid email format", none, ⟨[], 0⟩, 0⟩ ∧
    Auth.register_user (fun s => s) ⟨[], 0⟩ "alice" "a@b.co" "short1"
      = ⟨false, "Password must be at least 8 characters", none, ⟨[], 0⟩, 0⟩ :=
  ⟨register_validation_order.1 (fun s => s) ⟨[], 0⟩ "ab" "a@b.co" "Passw0rd"
      (by decide) (by decide),
   register_validation_order.2.2.2.1 (fun s => s) ⟨[], 0⟩ "alice" "bad-email" "Passw0rd"
      (by decide) (by decide),
   (register_validation_order.2.2.2.2.1 (fun s => s) ⟨[], 0⟩ "alice" "a@b.co" "short1"
      (by decide) (by decide) (by decide)).1 (by decide)⟩

/-- The running minimum never has a larger key than its seed. -/
lemma min_by_calories_le (t : ℚ) (xs : List Meals.Food) :
    ∀ x : Meals.Food,
      |(Meals.min_by_calories t x xs).calories - t| ≤ |x.calories - t| := by
  induction xs with
  | nil => intro x; simp [Meals.min_by_calories]
  | cons y ys ih =>
    intro x
    rw [Meals.min_by_calories, List.foldl_cons]
    by_cases h : |y.calories - t| < |x.calories - t|
    · rw [if_pos h]
      exact le_trans (ih y) (le_of_lt h)
    · rw [if_neg h]
      exact ih x

/-- The Python min builtin with the absolute-difference key returns the
earliest nearest element: strictly nearer than everything before it, and at
least as near as everything after it. -/
lemma min_by_calories_earliest (t : ℚ) :
    ∀ (xs : List Meals.Food) (x : Meals.Food),
      Meals.EarliestNearest (x :: xs) t (Meals.min_by_calories t x xs) := by
  intro xs
  induction xs with
  | nil =>
    intro x
    exact ⟨[], [], rfl, by simp, by simp⟩
  | cons y ys ih =>
    intro x
    by_cases h : |y.calories - t| < |x.calories - t|
    · have hstep : Meals.min_by_calories t x (y :: ys) = Meals.min_by_calories t y ys := by
        rw [Meals.min_by_calories, List.foldl_cons, if_pos h]; rfl
      obtain ⟨l₁, l₂, heq, hstrict, hle⟩ := ih y
      refine ⟨x :: l₁, l₂, ?_, ?_, ?_⟩
      · rw [hstep, List.cons_append, ← heq]
      · intro m hm
        rcases List.mem_cons.mp hm with rfl | hm2
        · rw [hstep]
          exact lt_of_le_of_lt (min_by_calories_le t ys y) h
        · rw [hstep]
          exact hstrict m hm2
      · intro m hm
        rw [hstep]
        exact hle m hm
    · have hstep : Meals.min_by_calories t x (y :: ys) = Meals.min_by_calories t x ys := by
        rw [Meals.min_by_calories, List.foldl_cons, if_neg h]; rfl
      obtain ⟨l₁, l₂, heq, hstrict, hle⟩ := ih x
      cases l₁ with
      | nil =>
        simp only [List.nil_append, List.cons.injEq] at heq
        obtain ⟨h1, h2⟩ := heq
        refine ⟨[], y :: ys, ?_, by simp, ?_⟩
        · simp only [List.nil_append]
          rw [hstep, ← h1]
        · intro m hm
          rw [hstep]
          rcases List.mem_cons.mp hm with rfl | hm2
          · rw [← h1]
            exact not_lt.mp h
          · exact hle m (h2 ▸ hm2)
      | cons a l₃ =>
        rw [List.cons_append, List.cons.injEq] at heq
        obtain ⟨h1, h2⟩ := heq
        refine ⟨x :: y :: l₃, l₂, ?_, ?_, ?_⟩
        · have hra : x :: y :: l₃ ++ Meals.min_by_calories t x ys :: l₂
              = x :: y :: (l₃ ++ Meals.min_by_calories t x ys :: l₂) := by
            simp
          rw [hstep, hra, ← h2]
        · intro m hm
          rw [hstep]
          rcases List.mem_cons.mp hm with hmx | hm2
          · rw [hmx]
            conv_rhs => rw [h1]
            exact hstrict a (List.mem_cons_self a l₃)
          · rcases List.mem_cons.mp hm2 with hmy | hm3
            · rw [hmy]
              refine lt_of_lt_of_le ?_ (not_lt.mp h)
              conv_rhs => rw [h1]
              exact hstrict a (List.mem_cons_self a l₃)
            · exact hstrict m (List.mem_cons_of_mem a hm3)
        · intro m hm
          rw [hstep]
          exact hle m hm

/-- A non-empty candidate pool makes _select_meal return the earliest nearest
item of the pool. -/
lemma select_meal_some (meal_type diet_pref : String) (t : ℚ)
    (h : Meals.candidate_pool meal_type diet_pref ≠ []) :
    ∃ b, Meals.select_meal meal_type diet_pref t = some b ∧
      Meals.EarliestNearest (Meals.candidate_pool meal_type diet_pref) t b := by
  rcases hp : Meals.candidate_pool meal_type diet_pref with _ | ⟨x, xs⟩
  · exact absurd hp h
  · refine ⟨Meals.min_by_calories t x xs, ?_, ?_⟩
    · rw [Meals.select_meal, hp]
    · exact min_by_calories_earliest t xs x

/-- Under the static table, every slot pool of every recognized diet
preference is non-empty (for vegan breakfast and snacks only through the
vegetarian fallback for breakfast; the table is concrete, so this is a
finite check). -/
lemma recognized_pools_ne_nil :
    ∀ slot ∈ Meals.meal_slots, ∀ dp ∈ Meals.recognized_diets,
      Meals.candidate_pool slot dp ≠ [] := by decide

/-- For a recognized diet preference, one day of the plan selects the
earliest nearest item of each of the four slot pools at 25, 35, 30 and 10
percent of the daily calories, and totals their macros. -/
lemma day_plan_meals (dp : String) (hdp : dp ∈ Meals.recognized_diets)
    (daily : ℚ) (day : Nat) :
    ∃ b l dn s,
      Meals.select_meal "breakfast" dp (daily * 0.25) = some b ∧
      Meals.select_meal "lunch" dp (daily * 0.35) = some l ∧
      Meals.select_meal "dinner" dp (daily * 0.30) = some dn ∧
      Meals.select_meal "snacks" dp (daily * 0.10) = some s ∧
      Meals.EarliestNearest (Meals.candidate_pool "breakfast" dp) (daily * 0.25) b ∧
      Meals.EarliestNearest (Meals.candidate_pool "lunch" dp) (daily * 0.35) l ∧
      Meals.EarliestNearest (Meals.candidate_pool "dinner" dp) (daily * 0.30) dn ∧
      Meals.EarliestNearest (Meals.candidate_pool "snacks" dp) (daily * 0.10) s ∧
      Meals.day_plan dp daily day
        = ⟨day, b.calories + l.calories + dn.calories + s.calories,
           b.protein + l.protein + dn.protein + s.protein,
           b.carbs + l.carbs + dn.carbs + s.carbs,
           b.fat + l.fat + dn.fat + s.fat,
           [⟨"Breakfast", b⟩, ⟨"Lunch", l⟩, ⟨"Dinner", dn⟩, ⟨"Snacks", s⟩]⟩ := by
  obtain ⟨b, hb, hbe⟩ := select_meal_some "breakfast" dp (daily * 0.25)
    (recognized_pools_ne_nil "breakfast" (by decide) dp hdp)
  obtain ⟨l, hl, hle⟩ := select_meal_some "lunch" dp (daily * 0.35)
    (recognized_pools_ne_nil "lunch" (by decide) dp hdp)
  obtain ⟨dn, hdn, hdne⟩ := select_meal_some "dinner" dp (daily * 0.30)
    (recognized_pools_ne_nil "dinner" (by decide) dp hdp)
  obtain ⟨s, hs, hse⟩ := select_meal_some "snacks" dp (daily * 0.10)
    (recognized_pools_ne_nil "snacks" (by decide) dp hdp)
  refine ⟨b, l, dn, s, hb, hl, hdn, hs, hbe, hle, hdne, hse, ?_⟩
  simp [Meals.day_plan, hb, hl, hdn, hs, Meals.add_meal]

/-- C2: for every recognized diet preference, each generated day selects per
slot exactly the earliest nearest-calorie item of the claimed candidate pool,
at slot targets of 25, 35, 30 and 10 percent of the goal-adjusted daily
calories. -/
theorem meal_plan_nearest_selection
    (diet_preference : String)
    (hdiet : Py.lower diet_preference ∈ Meals.recognized_diets)
    (calorie_target : ℚ) (goal : String) (num_days : Nat) (d : Meals.DailyMeals)
    (hd : d ∈ Meals.generate_meal_plan diet_preference calorie_target num_days goal) :
    ∃ b l dn s,
      d.meals = [⟨"Breakfast", b⟩, ⟨"Lunch", l⟩, ⟨"Dinner", dn⟩, ⟨"Snacks", s⟩] ∧
      Meals.EarliestNearest (Meals.candidate_pool "breakfast" (Py.lower diet_preference))
        (Meals.adjusted_calories goal calorie_target * 0.25) b ∧
      Meals.EarliestNearest (Meals.candidate_pool "lunch" (Py.lower diet_preference))
        (Meals.adjusted_calories goal calorie_target * 0.35) l ∧
      Meals.EarliestNearest (Meals.candidate_pool "dinner" (Py.lower diet_preference))
        (Meals.adjusted_calories goal calorie_target * 0.30) dn ∧
      Meals.EarliestNearest (Meals.candidate_pool "snacks" (Py.lower diet_preference))
        (Meals.adjusted_calories goal calorie_target * 0.10) s := by
  simp only [Meals.generate_meal_plan, List.mem_map] at hd
  obtain ⟨i, -, hdi⟩ := hd
  obtain ⟨b, l, dn, s, -, -, -, -, hbe, hle, hdne, hse, hday⟩ :=
    day_plan_meals (Py.lower diet_preference) hdiet
      (Meals.adjusted_calories goal calorie_target) (i + 1)
  refine ⟨b, l, dn, s, ?_, hbe, hle, hdne, hse⟩
  rw [← hdi, hday]

/-- Witness for C2 at the spec test inputs: vegetarian, 2000 calories, weight
loss, one day. -/
theorem meal_plan_nearest_selection_witness :
    ∃ b l dn s,
      (Meals.day_plan (Py.lower "Vegetarian")
          (Meals.adjusted_calories "Weight Loss" 2000) (0 + 1)).meals
        = [⟨"Breakfast", b⟩, ⟨"Lunch", l⟩, ⟨"Dinner", dn⟩, ⟨"Snacks", s⟩] ∧
      Meals.EarliestNearest (Meals.candidate_pool "breakfast" (Py.lower "Vegetarian"))
        (Meals.adjusted_calories "Weight Loss" 2000 * 0.25) b ∧
      Meals.EarliestNearest (Meals.candidate_pool "lunch" (Py.lower "Vegetarian"))
        (Meals.adjusted_calories "Weight Loss" 2000 * 0.35) l ∧
      Meals.EarliestNearest (Meals.candidate_pool "dinner" (Py.lower "Vegetarian"))
        (Meals.adjusted_calories "Weight Loss" 2000 * 0.30) dn ∧
      Meals.EarliestNearest (Meals.candidate_pool "snacks" (Py.lower "Vegetarian"))
        (Meals.adjusted_calories "Weight Loss" 2000 * 0.10) s :=
  meal_plan_nearest_selection "Vegetarian" (by decide) 2000 "Weight Loss" 1
    (Meals.day_plan (Py.lower "Vegetarian") (Meals.adjusted_calories "Weight Loss" 2000) (0 + 1))
    (by simp [Meals.generate_meal_plan, List.range_succ])

/-- An unrecognized lowercased diet preference gives an empty candidate pool
for every slot. -/
lemma candidate_pool_unrecognized (dp : String)
    (h : dp ∉ Meals.recognized_diets) (slot : String) :
    Meals.candidate_pool slot dp = [] := by
  simp only [Meals.recognized_diets, List.mem_cons, List.not_mem_nil, or_false,
    not_or] at h
  obtain ⟨h1, h2, h3, h4⟩ := h
  simp [Meals.candidate_pool, h1, h2, h3, h4]

/-- C10: for the four recognized diet preferences and positive num_days, the
plan has exactly num_days day entries, each with exactly 4 meal slots and
totals equal to the sums of the four selected items, while an unrecognized
diet preference silently yields day entries with no meals and all-zero
totals. -/
theorem meal_plan_shape :
    (∀ (diet : String) (cal : ℚ) (goal : String) (n : Nat),
      Py.lower diet ∈ Meals.recognized_diets → 1 ≤ n →
      (Meals.generate_meal_plan diet cal n goal).length = n ∧
      ∀ d ∈ Meals.generate_meal_plan diet cal n goal,
        d.meals.length = 4 ∧
        d.total_calories = (d.meals.map (fun m => m.food.calories)).sum ∧
        d.total_protein = (d.meals.map (fun m => m.food.protein)).sum ∧
        d.total_carbs = (d.meals.map (fun m => m.food.carbs)).sum ∧
        d.total_fat = (d.meals.map (fun m => m.food.fat)).sum) ∧
    (∀ (diet : String) (cal : ℚ) (goal : String) (n : Nat),
      Py.lower diet ∉ Meals.recognized_diets →
      ∀ d ∈ Meals.generate_meal_plan diet cal n goal,
        d.meals = [] ∧ d.total_calories = 0 ∧ d.total_protein = 0 ∧
        d.total_carbs = 0 ∧ d.total_fat = 0) := by
  constructor
  · intro diet cal goal n hdiet _
    constructor
    · simp [Meals.generate_meal_plan]
    · intro d hd
      simp only [Meals.generate_meal_plan, List.mem_map] at hd
      obtain ⟨i, -, hdi⟩ := hd
      obtain ⟨b, l, dn, s, -, -, -, -, -, -, -, -, hday⟩ :=
        day_plan_meals (Py.lower diet) hdiet (Meals.adjusted_calories goal cal) (i + 1)
      rw [← hdi, hday]
      refine ⟨rfl, ?_, ?_, ?_, ?_⟩ <;> (simp; try ring)
  · intro diet cal goal n hdiet d hd
    simp only [Meals.generate_meal_plan, List.mem_map] at hd
    obtain ⟨i, -, hdi⟩ := hd
    have hsel : ∀ slot t, Meals.select_meal slot (Py.lower diet) t = none := by
      intro slot t
      rw [Meals.select_meal, candidate_pool_unrecognized (Py.lower diet) hdiet slot]
    rw [← hdi]
    simp [Meals.day_plan, hsel, Meals.add_meal]

/-- Witness for C10: a vegan three-day plan and an unrecognized keto
request. -/
theorem meal_plan_shape_witness :
    ((Meals.generate_meal_plan "vegan" 1800 3 "Muscle Gain").length = 3 ∧
      ∀ d ∈ Meals.generate_meal_plan "vegan" 1800 3 "Muscle Gain",
        d.meals.length = 4 ∧
        d.total_calories = (d.meals.map (fun m => m.food.calories)).sum ∧
        d.total_protein = (d.meals.map (fun m => m.food.protein)).sum ∧
        d.total_carbs = (d.meals.map (fun m => m.food.carbs)).sum ∧
        d.total_fat = (d.meals.map (fun m => m.food.fat)).sum) ∧
    (∀ d ∈ Meals.generate_meal_plan "keto" 1800 2 "maintenance",
      d.meals = [] ∧ d.total_calories = 0 ∧ d.total_protein = 0 ∧
      d.total_carbs = 0 ∧ d.total_fat = 0) :=
  ⟨meal_plan_shape.1 "vegan" 1800 "Muscle Gain" 3 (by decide) (by decide),
   meal_plan_shape.2 "keto" 1800 "maintenance" 2 (by decide)⟩

/-- A duplicate-free list that is contained in a duplicate-free list of no
greater length contains every element of it. -/
lemma mem_of_subset_card (pool s : List Workout.Exercise) (hpn : pool.Nodup)
    (hsn : s.Nodup) (hsub : ∀ x ∈ s, x ∈ pool) (hlen : pool.length ≤ s.length) :
    ∀ x ∈ pool, x ∈ s := by
  have h1 : s.toFinset ⊆ pool.toFinset := by
    intro x hx
    rw [List.mem_toFinset] at hx ⊢
    exact hsub x hx
  have hcard : pool.toFinset.card ≤ s.toFinset.card := by
    rw [List.toFinset_card_of_nodup hpn, List.toFinset_card_of_nodup hsn]
    exact hlen
  have heq := Finset.eq_of_subset_of_card_le h1 hcard
  intro x hx
  rw [← List.mem_toFinset, ← heq, List.mem_toFinset] at hx
  exact hx

/-- Every valid location, category and level resolves to a pool in the static
exercise table, and each of the twelve pools is duplicate-free. -/
lemma exercises_db_some :
    ∀ loc ∈ ["home", "gym"], ∀ cat ∈ ["strength", "cardio"],
      ∀ lvl ∈ ["beginner", "intermediate", "advanced"],
      (Workout.exercises_db loc cat lvl).isSome = true ∧
      ((Workout.exercises_db loc cat lvl).getD []).Nodup := by decide

/-- C3: for valid location, non-Mixed workout type and level, the generated
main-exercise list has exactly min(pool size, max(4, duration div 10))
pairwise-distinct elements of the looked-up pool, and is the whole pool when
the pool is smaller than the target count; every generated workout has a
4-item warmup and a 5-item cooldown. -/
theorem workout_generation_counts
    (sample : List Workout.Exercise → Nat → List Workout.Exercise)
    (hsample : Workout.SampleContract sample)
    (location workout_type experience_level : String) (duration_minutes : ℤ)
    (hloc : Py.lower location ∈ ["home", "gym"])
    (hlvl : Py.lower experience_level ∈ ["beginner", "intermediate", "advanced"])
    (ht : workout_type ∈ ["Strength Training", "Cardio", "HIIT"]) :
    (∃ pool w,
      Workout.workout_pool sample (Py.lower location) (Py.lower experience_level)
          workout_type = some pool ∧
      Workout.generate_workout sample location workout_type experience_level
          duration_minutes = some w ∧
      w.exercises.length
        = (min (pool.length : ℤ) (max 4 (duration_minutes.fdiv 10))).toNat ∧
      w.exercises.Nodup ∧
      (∀ x ∈ w.exercises, x ∈ pool) ∧
      ((pool.length : ℤ) < max 4 (duration_minutes.fdiv 10) →
        ∀ x ∈ pool, x ∈ w.exercises)) ∧
    (∀ (sample₂ : List Workout.Exercise → Nat → List Workout.Exercise)
        (loc₂ wt₂ lvl₂ : String) (dur₂ : ℤ) (w₂ : Workout.WorkoutPlan),
      Workout.generate_workout sample₂ loc₂ wt₂ lvl₂ dur₂ = some w₂ →
      w₂.warmup.length = 4 ∧ w₂.cooldown.length = 5) := by
  constructor
  · have hcat : ∃ cat, cat ∈ ["strength", "cardio"] ∧
        Workout.workout_pool sample (Py.lower location) (Py.lower experience_level)
            workout_type
          = Workout.exercises_db (Py.lower location) cat (Py.lower experience_level) := by
      simp only [List.mem_cons, List.not_mem_nil, or_false] at ht
      rcases ht with h | h | h <;> subst h
      · exact ⟨"strength", by decide, by simp [Workout.workout_pool]⟩
      · exact ⟨"cardio", by decide, by simp [Workout.workout_pool]⟩
      · exact ⟨"cardio", by decide, by simp [Workout.workout_pool]⟩
    obtain ⟨cat, hcatm, hpool⟩ := hcat
    obtain ⟨hsome, hnodup⟩ :=
      exercises_db_some (Py.lower location) hloc cat hcatm (Py.lower experience_level) hlvl
    rcases hdbeq : Workout.exercises_db (Py.lower location) cat (Py.lower experience_level)
      with _ | pool
    · rw [hdbeq] at hsome
      cases hsome
    · have hnd : pool.Nodup := by
        rw [hdbeq] at hnodup
        exact hnodup
      have hk_eq : min (min (pool.length : ℤ) (max 4 (duration_minutes.fdiv 10)))
          (pool.length : ℤ) = min (pool.length : ℤ) (max 4 (duration_minutes.fdiv 10)) :=
        min_eq_left (min_le_left _ _)
      have hk_le : (min (min (pool.length : ℤ) (max 4 (duration_minutes.fdiv 10)))
          (pool.length : ℤ)).toNat ≤ pool.length := by
        rw [hk_eq]
        exact Int.toNat_le.mpr (min_le_left _ _)
      obtain ⟨hlen, hnods, hsub⟩ := hsample pool _ hnd hk_le
      refine ⟨pool,
        { workout_kind := workout_type,
          location := (Py.lower location).capitalize,
          level := (Py.lower experience_level).capitalize,
          duration := duration_minutes,
          warmup := Workout.get_warmup,
          exercises := sample pool
            (min (min (pool.length : ℤ) (max 4 (duration_minutes.fdiv 10)))
              (pool.length : ℤ)).toNat,
          cooldown := Workout.get_cooldown },
        by rw [hpool, hdbeq], ?_, ?_, hnods, hsub, ?_⟩
      · simp only [Workout.generate_workout, hpool, hdbeq]
      · show (sample pool
            (min (min (pool.length : ℤ) (max 4 (duration_minutes.fdiv 10)))
              (pool.length : ℤ)).toNat).length
          = (min (pool.length : ℤ) (max 4 (duration_minutes.fdiv 10))).toNat
        rw [hlen, hk_eq]
      · intro hlt x hx
        have hnum_eq : min (pool.length : ℤ) (max 4 (duration_minutes.fdiv 10))
            = (pool.length : ℤ) := min_eq_left (le_of_lt hlt)
        refine mem_of_subset_card pool _ hnd hnods hsub ?_ x hx
        rw [hlen, hk_eq, hnum_eq, Int.toNat_ofNat]
  · intro sample₂ loc₂ wt₂ lvl₂ dur₂ w₂ hw
    simp only [Workout.generate_workout] at hw
    split at hw
    · cases hw
    · have hw2 := Option.some.inj hw
      rw [← hw2]
      exact ⟨rfl, rfl⟩

/-- The take-a-prefix function satisfies the random.sample contract on
duplicate-free populations. -/
lemma take_contract : Workout.SampleContract (fun l k => l.take k) := by
  intro l k hnd hk
  refine ⟨?_, ?_, ?_⟩
  · simp only [List.length_take]
    omega
  · exact hnd.sublist (List.take_sublist k l)
  · intro x hx
    exact (List.take_sublist k l).subset hx

/-- Witness for C3 at the spec test inputs: home strength beginner for 45
minutes (a pool of 8, selecting exactly 4). -/
theorem workout_generation_counts_witness :
    ∃ pool w,
      Workout.workout_pool (fun l k => l.take k) (Py.lower "Home") (Py.lower "Beginner")
          "Strength Training" = some pool ∧
      Workout.generate_workout (fun l k => l.take k) "Home" "Strength Training"
          "Beginner" 45 = some w ∧
      w.exercises.length = (min (pool.length : ℤ) (max 4 ((45 : ℤ).fdiv 10))).toNat ∧
      w.exercises.Nodup ∧
      (∀ x ∈ w.exercises, x ∈ pool) ∧
      ((pool.length : ℤ) < max 4 ((45 : ℤ).fdiv 10) → ∀ x ∈ pool, x ∈ w.exercises) :=
  (workout_generation_counts (fun l k => l.take k) take_contract
    "Home" "Strength Training" "Beginner" 45 (by decide) (by decide) (by decide)).1

/-- The clamped Navy output is antitone in the denominator on the region
where the (larger-input) denominator is positive. -/
lemma clamp_navy_antitone (D₁ D₂ : ℝ) (h0 : 0 < D₂) (h12 : D₂ ≤ D₁) :
    max 5 (min 50 (495 / D₁ - 450)) ≤ max 5 (min 50 (495 / D₂ - 450)) := by
  have h1 : (0 : ℝ) < D₁ := lt_of_lt_of_le h0 h12
  have hdiv : (495 : ℝ) / D₁ ≤ 495 / D₂ :=
    (div_le_div_iff_of_pos_left (by norm_num) h1 h0).mpr h12
  exact max_le_max le_rfl (min_le_min le_rfl (by linarith))

/-- The clamped Navy shape is monotone in the circumference argument while
the denominator at the larger argument stays positive. -/
lemma navy_clamped_mono (A B C x₁ x₂ h : ℝ) (hB : 0 < B)
    (hx₁ : 0 < x₁) (hx : x₁ ≤ x₂)
    (hden : 0 < A - B * Real.logb 10 x₂ + C * Real.logb 10 h) :
    max 5 (min 50 (495 / (A - B * Real.logb 10 x₁ + C * Real.logb 10 h) - 450))
      ≤ max 5 (min 50 (495 / (A - B * Real.logb 10 x₂ + C * Real.logb 10 h) - 450)) := by
  have hlog : Real.logb 10 x₁ ≤ Real.logb 10 x₂ :=
    Real.logb_le_logb_of_le (by norm_num) hx₁ hx
  have hD : A - B * Real.logb 10 x₂ + C * Real.logb 10 h
      ≤ A - B * Real.logb 10 x₁ + C * Real.logb 10 h := by
    have := mul_le_mul_of_nonneg_left hlog (le_of_lt hB)
    linarith
  exact clamp_navy_antitone _ _ hden hD

/-- The clamped Navy shape is antitone in the height argument while the
denominator at the smaller height stays positive. -/
lemma navy_clamped_anti (A B C x h₁ h₂ : ℝ) (hC : 0 < C)
    (hh₁ : 0 < h₁) (hh : h₁ ≤ h₂)
    (hden : 0 < A - B * Real.logb 10 x + C * Real.logb 10 h₁) :
    max 5 (min 50 (495 / (A - B * Real.logb 10 x + C * Real.logb 10 h₂) - 450))
      ≤ max 5 (min 50 (495 / (A - B * Real.logb 10 x + C * Real.logb 10 h₁) - 450)) := by
  have hlog : Real.logb 10 h₁ ≤ Real.logb 10 h₂ :=
    Real.logb_le_logb_of_le (by norm_num) hh₁ hh
  have hD : A - B * Real.logb 10 x + C * Real.logb 10 h₁
      ≤ A - B * Real.logb 10 x + C * Real.logb 10 h₂ := by
    have := mul_le_mul_of_nonneg_left hlog (le_of_lt hC)
    linarith
  exact clamp_navy_antitone _ _ hden hD

/-- C4 counterexample: with height and neck held fixed, a larger waist-neck
difference can strictly lower the clamped prediction, because the Navy
denominator changes sign: at height 10 the prediction is 50 for a difference
of ten to the sixth but 5 for ten to the seventh. -/
theorem body_fat_monotonicity_fails :
    BodyFat.empirical_prediction ⟨"male", 10, 70, 10 ^ 6, 0, 95⟩ = 50 ∧
    BodyFat.empirical_prediction ⟨"male", 10, 70, 10 ^ 7, 0, 95⟩ = 5 ∧
    ((10 : ℝ) ^ 6 - 0 < (10 : ℝ) ^ 7 - 0) := by
  have hl10 : Real.logb 10 10 = 1 := Real.logb_self_eq_one (by norm_num)
  have hl6 : Real.logb 10 ((10 : ℝ) ^ (6 : ℕ)) = 6 := by
    rw [Real.logb_pow, hl10]; norm_num
  have hl7 : Real.logb 10 ((10 : ℝ) ^ (7 : ℕ)) = 7 := by
    rw [Real.logb_pow, hl10]; norm_num
  refine ⟨?_, ?_, by norm_num⟩
  · show max 5.0 (min 50.0 (495 / BodyFat.male_denom ((10 : ℝ) ^ (6 : ℕ) - 0) 10 - 450)) = 50
    rw [sub_zero, BodyFat.male_denom, hl6, hl10,
      show (1.0324 - 0.19077 * 6 + 0.15456 * 1 : ℝ) = 0.04234 from by norm_num,
      min_eq_left (by norm_num : (50.0 : ℝ) ≤ 495 / 0.04234 - 450),
      max_eq_right (by norm_num : (5.0 : ℝ) ≤ 50.0)]
    norm_num
  · show max 5.0 (min 50.0 (495 / BodyFat.male_denom ((10 : ℝ) ^ (7 : ℕ) - 0) 10 - 450)) = 5
    rw [sub_zero, BodyFat.male_denom, hl7, hl10,
      show (1.0324 - 0.19077 * 7 + 0.15456 * 1 : ℝ) = -0.14843 from by norm_num,
      min_eq_right (by norm_num : (495 / (-0.14843 : ℝ) - 450) ≤ 50.0),
      max_eq_left (by norm_num : (495 / (-0.14843 : ℝ) - 450) ≤ 5.0)]
    norm_num

/-- C4 amended: the prediction always lies in the 5 to 50 band; holding
height and neck fixed it is non-decreasing in the waist-neck difference, and
holding the circumferences fixed it is non-increasing in height, on the
region where the inputs and the Navy denominator stay positive (outside it
the denominator changes sign and the clamp reverses, as the counterexample
shows); both the male and the female branch satisfy this. -/
theorem body_fat_bounds_and_monotone :
    (∀ m : BodyFat.Measurements,
      5 ≤ BodyFat.empirical_prediction m ∧ BodyFat.empirical_prediction m ≤ 50) ∧
    (∀ m₁ m₂ : BodyFat.Measurements,
      Py.lower m₁.gender = "male" → Py.lower m₂.gender = "male" →
      m₁.height = m₂.height → m₁.neck = m₂.neck →
      0 < m₁.abdomen - m₁.neck →
      m₁.abdomen - m₁.neck ≤ m₂.abdomen - m₂.neck →
      0 < BodyFat.male_denom (m₂.abdomen - m₂.neck) m₂.height →
      BodyFat.empirical_prediction m₁ ≤ BodyFat.empirical_prediction m₂) ∧
    (∀ m₁ m₂ : BodyFat.Measurements,
      Py.lower m₁.gender = "male" → Py.lower m₂.gender = "male" →
      m₁.abdomen = m₂.abdomen → m₁.neck = m₂.neck →
      0 < m₁.height → m₁.height ≤ m₂.height →
      0 < BodyFat.male_denom (m₁.abdomen - m₁.neck) m₁.height →
      BodyFat.empirical_prediction m₂ ≤ BodyFat.empirical_prediction m₁) ∧
    (∀ m₁ m₂ : BodyFat.Measurements,
      Py.lower m₁.gender ≠ "male" → Py.lower m₂.gender ≠ "male" →
      m₁.height = m₂.height → m₁.neck = m₂.neck → m₁.hip = m₂.hip →
      0 < m₁.abdomen + m₁.hip - m₁.neck →
      m₁.abdomen + m₁.hip - m₁.neck ≤ m₂.abdomen + m₂.hip - m₂.neck →
      0 < BodyFat.female_denom (m₂.abdomen + m₂.hip - m₂.neck) m₂.height →
      BodyFat.empirical_prediction m₁ ≤ BodyFat.empirical_prediction m₂) ∧
    (∀ m₁ m₂ : BodyFat.Measurements,
      Py.lower m₁.gender ≠ "male" → Py.lower m₂.gender ≠ "male" →
      m₁.abdomen = m₂.abdomen → m₁.neck = m₂.neck → m₁.hip = m₂.hip →
      0 < m₁.height → m₁.height ≤ m₂.height →
      0 < BodyFat.female_denom (m₁.abdomen + m₁.hip - m₁.neck) m₁.height →
      BodyFat.empirical_prediction m₂ ≤ BodyFat.empirical_prediction m₁) := by
  have h5 : (5.0 : ℝ) = 5 := by norm_num
  have h50 : (50.0 : ℝ) = 50 := by norm_num
  refine ⟨?_, ?_, ?_, ?_, ?_⟩
  · intro m
    constructor
    · refine le_trans (le_of_eq h5.symm) ?_
      exact le_max_left _ _
    · refine le_trans (max_le (by norm_num) (min_le_left _ _)) ?_
      norm_num
  · intro m₁ m₂ hg1 hg2 hh hn hd0 hd hden
    simp only [BodyFat.empirical_prediction, BodyFat.male_denom, hg1, hg2,
      if_pos, h5, h50] at *
    rw [hh]
    exact navy_clamped_mono 1.0324 0.19077 0.15456 _ _ _ (by norm_num) hd0 hd hden
  · intro m₁ m₂ hg1 hg2 ha hn hh0 hh hden
    simp only [BodyFat.empirical_prediction, BodyFat.male_denom, hg1, hg2,
      if_pos, h5, h50] at *
    rw [← ha, ← hn]
    exact navy_clamped_anti 1.0324 0.19077 0.15456 _ _ _ (by norm_num) hh0 hh hden
  · intro m₁ m₂ hg1 hg2 hh hn hhip hd0 hd hden
    simp only [BodyFat.empirical_prediction, BodyFat.female_denom, hg1, hg2,
      if_neg, h5, h50] at *
    rw [hh]
    exact navy_clamped_mono 1.29579 0.35004 0.22100 _ _ _ (by norm_num) hd0 hd hden
  · intro m₁ m₂ hg1 hg2 ha hn hhip hh0 hh hden
    simp only [BodyFat.empirical_prediction, BodyFat.female_denom, hg1, hg2,
      if_neg, h5, h50] at *
    rw [← ha, ← hn, ← hhip]
    exact navy_clamped_anti 1.29579 0.35004 0.22100 _ _ _ (by norm_num) hh0 hh hden

/-- Witness for C4: the spec male example lies in the band, and the male
monotonicity applies at a concrete in-range pair. -/
theorem body_fat_bounds_and_monotone_witness :
    (5 ≤ BodyFat.empirical_prediction ⟨"male", 175, 70, 85, 37, 95⟩ ∧
      BodyFat.empirical_prediction ⟨"male", 175, 70, 85, 37, 95⟩ ≤ 50) ∧
    BodyFat.empirical_prediction ⟨"male", 10, 70, 1, 0, 95⟩
      ≤ BodyFat.empirical_prediction ⟨"male", 10, 70, 10, 0, 95⟩ := by
  constructor
  · exact body_fat_bounds_and_monotone.1 ⟨"male", 175, 70, 85, 37, 95⟩
  · apply body_fat_bounds_and_monotone.2.1 ⟨"male", 10, 70, 1, 0, 95⟩
      ⟨"male", 10, 70, 10, 0, 95⟩ (by decide) (by decide) rfl rfl
      (by norm_num) (by norm_num)
    show (0 : ℝ) < BodyFat.male_denom (10 - 0) 10
    rw [BodyFat.male_denom, show ((10 : ℝ) - 0) = 10 from by norm_num,
      Real.logb_self_eq_one (by norm_num)]
    norm_num

/-- C9: the chat coach never raises: with no configured model it returns the
fixed configuration message whatever the remote service would do, and when
the remote call raises it returns the fixed error format with the exception
text embedded. Totality of get_response models that no exception escapes. -/
theorem coach_soft_fail :
    (∀ (send : String → Except String String) (msg : String)
        (ctx : Option Coach.UserContext),
      Coach.get_response false send msg ctx = Coach.config_msg) ∧
    (∀ (send : String → Except String String) (msg : String)
        (ctx : Option Coach.UserContext) (e : String),
      send (Coach.build_prompt msg ctx) = Except.error e →
      Coach.get_response true send msg ctx = "❌ Error getting response: " ++ e) := by
  constructor
  · intro send msg ctx; rfl
  · intro send msg ctx e h
    simp [Coach.get_response, h]

/-- Witness for C9 at a concrete failing remote call. -/
theorem coach_soft_fail_witness :
    Coach.get_response true (fun _ => Except.error "service down") "hi" none
      = "❌ Error getting response: " ++ "service down" :=
  coach_soft_fail.2 (fun _ => Except.error "service down") "hi" none "service down" rfl
